import Mathlib

/-!
Verification development for the angularbites.com static-site repository.

The Eleventy configuration (`.eleventy.js`) is embedded directly from the
source.  The external libraries it invokes (`html-minifier`,
Eleventy's front-matter handling, the `@code-blocks/charts` plugin) are not
part of the repository, so they are modelled from the specification's
contracts; every such definition carries a doc comment starting with
`Modelled from the spec:`.
-/

namespace AngularBites

/-! ## Character-level utilities -/

/-- Whitespace characters, as collapsed by the minifier's
`collapseWhitespace` option. -/
def isWs (c : Char) : Bool := c == ' ' || c == '\n' || c == '\t' || c == '\r'

/-- True when a list of characters starts with a whitespace character. -/
def leadWs : List Char → Bool
  | [] => false
  | c :: _ => isWs c

/-- A list of characters with no whitespace at all. -/
def wsFree (l : List Char) : Bool := l.all (fun c => !(isWs c))

/-! ## Minifier model

`Modelled from the spec:` the repository calls the external `html-minifier`
library, whose code is not under `src/`.  Section 4.5 of the spec gives its
contract under the configured options: whitespace runs collapsed, comments
removed, the doctype normalized to the short form.  Inline script content is
covered by the same uniform whitespace collapse. -/

/-- Modelled from the spec: collapse every run of whitespace characters to a
single space (the `collapseWhitespace` option). -/
def collapse : List Char → List Char
  | [] => []
  | c :: rest =>
    if isWs c then ' ' :: collapse (rest.dropWhile isWs)
    else c :: collapse rest
termination_by l => l.length
decreasing_by
  · simp only [List.length_cons]
    exact Nat.lt_succ_of_le (List.dropWhile_suffix isWs).length_le
  · simp only [List.length_cons]
    exact Nat.lt_succ_self _

/-- The four characters opening an HTML comment. -/
def opener : List Char := ['<', '!', '-', '-']

/-- The three characters closing an HTML comment. -/
def closer : List Char := ['-', '-', '>']

/-- Modelled from the spec: skip to just past the closing `-->` of a comment
(or to the end of input when the comment is unterminated). -/
def skipComment : List Char → List Char
  | [] => []
  | c :: rest => if closer <+: (c :: rest) then rest.drop 2 else skipComment rest

/-- Modelled from the spec: remove every HTML comment (the `removeComments`
option): each region from `<!--` to the next `-->` is deleted. -/
def removeComments : List Char → List Char
  | [] => []
  | c :: rest =>
    if opener <+: (c :: rest) then removeComments (skipComment (rest.drop 3))
    else c :: removeComments rest
termination_by l => l.length
decreasing_by
  · have hsk : ∀ l : List Char, (skipComment l).length ≤ l.length := by
      intro l
      induction l with
      | nil => simp [skipComment]
      | cons d r ih =>
        rw [skipComment]
        split
        · have h2 : (r.drop 2).length = r.length - 2 := List.length_drop 2 r
          simp only [List.length_cons]
          omega
        · simp only [List.length_cons]
          omega
    have hgen : ∀ (d : Char) (r : List Char),
        (skipComment (r.drop 3)).length < (d :: r).length := by
      intro d r
      have h1 := hsk (r.drop 3)
      have h2 : (r.drop 3).length = r.length - 3 := List.length_drop 3 r
      simp only [List.length_cons]
      omega
    exact hgen _ _
  · simp only [List.length_cons]
    exact Nat.lt_succ_self _

/-- The long doctype form replaced by the `useShortDoctype` option. -/
def longDoctype : List Char := ("<!DOCTYPE html>").toList

/-- The short doctype form produced by the `useShortDoctype` option. -/
def doctypeShort : List Char := ("<!doctype html>").toList

/-- Modelled from the spec: normalize a leading long doctype to the short
form (the `useShortDoctype` option). -/
def shortDoctype (l : List Char) : List Char :=
  if l.take 15 = longDoctype then doctypeShort ++ l.drop 15 else l

/-- The option record passed to `htmlmin.minify` in `.eleventy.js`. -/
structure HtmlMinOptions where
  useShortDoctype : Bool
  removeComments : Bool
  collapseWhitespace : Bool
  minifyJS : Bool

/-- The concrete options configured in `.eleventy.js` (all four enabled). -/
def htmlminOptions : HtmlMinOptions := ⟨true, true, true, true⟩

/-- Modelled from the spec: the whole-document minification pass, applying
the transformations selected by the option record. -/
def minifyChars (opts : HtmlMinOptions) (l : List Char) : List Char :=
  let l1 := if opts.removeComments then removeComments l else l
  let l2 := if opts.collapseWhitespace then collapse l1 else l1
  if opts.useShortDoctype then shortDoctype l2 else l2

/-- Modelled from the spec: `htmlmin.minify` on strings. -/
def minify (opts : HtmlMinOptions) (s : String) : String :=
  String.mk (minifyChars opts s.toList)

/-- Characterisation of `noRuns`: every whitespace character is a single
space not followed by more whitespace. -/
def noRuns : List Char → Bool
  | [] => true
  | c :: rest => (!(isWs c) || ((c == ' ') && !(leadWs rest))) && noRuns rest

/-- A sample HTML document used as a concrete input; its one comment is
properly delimited. -/
def htmlDocSample : String :=
  "<!DOCTYPE html>  <html> <!-- note --> <p>hi</p> </html>"

/-! ## The htmlmin transform, embedded from `.eleventy.js` -/

/-- A JavaScript value as passed for `outputPath` by Eleventy: a string for
items written to disk, the boolean `false` for templates with no output
file. -/
inductive JsVal where
  | str : String → JsVal
  | bool : Bool → JsVal

/-- JavaScript semantics of `s.endsWith(suf)` on strings: does `suf` occur
as a suffix of `s`. -/
def jsStringEndsWith (s suf : String) : Bool :=
  List.isSuffixOf suf.toList s.toList

/-- JavaScript semantics of `outputPath.endsWith(suffixStr)`: on a string it
tests the suffix; on a boolean the method does not exist and a TypeError is
thrown (modelled as an error value). -/
def jsEndsWith : JsVal → String → Except String Bool
  | JsVal.str s, suf => Except.ok (jsStringEndsWith s suf)
  | JsVal.bool _, _ =>
      Except.error ("TypeError: outputPath.endsWith is not a function")

/-- Embedded from `.eleventy.js` lines 27-39: the transform registered under
the name htmlmin.  It calls `outputPath.endsWith('.html')` without any guard
and minifies matching content with the configured options; all other content
is returned unchanged. -/
def htmlminTransform (content : String) (outputPath : JsVal) :
    Except String String :=
  match jsEndsWith outputPath (".html") with
  | Except.ok true => Except.ok (minify htmlminOptions content)
  | Except.ok false => Except.ok content
  | Except.error e => Except.error e

/-! ## Front-matter parser

`Modelled from the spec:` front matter is parsed inside Eleventy by library
code that is not part of the repository; section 4.1 of the spec gives its
contract.  Lines are processed as lists of characters. -/

/-- Drop leading space characters. -/
def dropSpaces : List Char → List Char
  | ' ' :: r => dropSpaces r
  | l => l

/-- Trim space characters from both ends. -/
def trimSpaces (l : List Char) : List Char :=
  (dropSpaces (dropSpaces l).reverse).reverse

/-- True when a line, after its indentation, is a YAML list item. -/
def isItem (l : List Char) : Bool :=
  match dropSpaces l with
  | '-' :: ' ' :: _ => true
  | _ => false

/-- The value carried by a YAML list-item line. -/
def itemValue (l : List Char) : List Char :=
  trimSpaces ((dropSpaces l).drop 2)

/-- Split a line at its first colon into key and value parts. -/
def splitColon : List Char → Option (List Char × List Char)
  | [] => none
  | ':' :: r => some ([], r)
  | c :: r =>
    match splitColon r with
    | some (k, v) => some (c :: k, v)
    | none => none

/-- Parsed front-matter metadata: an ordered mapping from keys to the list
of their values (a scalar is a one-element list, a YAML list collects its
items, a bare key has no values). -/
abbrev Metadata := List (List Char × List (List Char))

/-- Attach a list-item value to the most recently opened key. -/
def addItem (acc : Metadata) (v : List Char) : Metadata :=
  match acc with
  | [] => []
  | (k, vs) :: t => (k, vs ++ [v]) :: t

/-- Modelled from the spec: process one header line (a list item attaches to
the previous key; a `key: value` line opens a new entry). The accumulator
holds entries most recent first. -/
def metaStep (acc : Metadata) (l : List Char) : Metadata :=
  if isItem l then addItem acc (itemValue l)
  else
    match splitColon l with
    | some (k, v) =>
      (trimSpaces k,
        if (trimSpaces v).isEmpty then [] else [trimSpaces v]) :: acc
    | none => acc

/-- Modelled from the spec: parse a front-matter header block (the lines
between the delimiters) into metadata. -/
def parseMetaLines (lines : List String) : Metadata :=
  (lines.foldl (fun acc l => metaStep acc l.toList) []).reverse

/-- Split a list of lines at the first delimiter line `---`, returning the
lines before it and the lines after it; `none` when no delimiter occurs. -/
def splitAtDelim : List String → Option (List String × List String)
  | [] => none
  | l :: rest =>
    if l = ("---") then some ([], rest)
    else
      match splitAtDelim rest with
      | some (h, b) => some (l :: h, b)
      | none => none

/-- The fatal error message for a missing closing front-matter delimiter,
referencing the offending file path. -/
def fmErrorMsg (path : String) : String :=
  ("Malformed front matter (missing closing delimiter) in ") ++ path

/-- Modelled from the spec (section 4.1): split the file at the first
closing front-matter delimiter and parse the header block as a key-value
mapping; a missing closing delimiter is fatal for that file, and the error
names the file path.  A file not opening with a delimiter has empty
metadata. -/
def parseFrontMatterLines (path : String) (lines : List String) :
    Except String (Metadata × List String) :=
  match lines with
  | [] => Except.ok ([], [])
  | first :: rest =>
    if first = ("---") then
      match splitAtDelim rest with
      | some (header, body) => Except.ok (parseMetaLines header, body)
      | none => Except.error (fmErrorMsg path)
    else Except.ok ([], lines)

/-- The metadata key `title`. -/
def titleKey : List Char := ("title").toList

/-- The metadata key `date`. -/
def dateKey : List Char := ("date").toList

/-- The metadata key `tags`. -/
def tagsKey : List Char := ("tags").toList

/-- Does the metadata contain the given key. -/
def hasKey (m : Metadata) (k : List Char) : Bool :=
  m.any (fun e => e.1 == k)

/-- All values stored under the given key (empty when absent). -/
def getVals (m : Metadata) (k : List Char) : List (List Char) :=
  match m.find? (fun e => e.1 == k) with
  | some e => e.2
  | none => []

/-- The orderability invariant of section 3 of the spec: the file parses and
its metadata contains at least a title and a date. -/
def orderable (p : String × List String) : Bool :=
  match parseFrontMatterLines p.1 p.2 with
  | Except.ok (m, _) => hasKey m titleKey && hasKey m dateKey
  | Except.error _ => false

/-- A parsed content document: path identity, front-matter metadata, body
lines. -/
structure Document where
  path : String
  meta : Metadata
  body : List String
deriving DecidableEq

/-- The tag list of a document (the values under its `tags` key). -/
def tagsOf (d : Document) : List (List Char) := getVals d.meta tagsKey

/-- Modelled from the spec: the derived tag-index view, computed fresh each
build: the set of documents carrying the given tag. -/
def tagIndex (docs : List Document) (t : List Char) : List Document :=
  docs.filter (fun d => decide (t ∈ tagsOf d))

/-! ## Chart renderer model

`Modelled from the spec:` the `@code-blocks/charts` plugin is an external
dependency; section 4.4 of the spec gives its contract, and the fenced
blocks in the repository content fix the concrete mini-language: an optional
delimited header of `key: value` configuration, then a comma-separated
header row and one `label,value` data row per line. -/

/-- Split a list of characters on a separator character. -/
def splitOnChar (sep : Char) : List Char → List (List Char)
  | [] => [[]]
  | c :: rest =>
    let r := splitOnChar sep rest
    if c = sep then [] :: r
    else
      match r with
      | h :: t => (c :: h) :: t
      | [] => [[c]]

/-- Decimal digit test. -/
def isDigit (c : Char) : Bool := ('0' ≤ c) && (c ≤ '9')

/-- A nonempty all-digit character list. -/
def allDigits (l : List Char) : Bool := !(l.isEmpty) && l.all isDigit

/-- Numeric chart value: an integer or a decimal with digits on both sides
of the point. -/
def isNumericChars (l : List Char) : Bool :=
  match splitOnChar '.' l with
  | [a] => allDigits a
  | [a, b] => allDigits a && allDigits b
  | _ => false

/-- Parse a nonempty all-digit character list as a natural number. -/
def parseNatChars (l : List Char) : Option Nat :=
  if allDigits l then
    some (l.foldl (fun n c => n * 10 + (c.toNat - 48)) 0)
  else none

/-- Split a chart block into its configuration header lines and its row
lines. -/
def chartSplit (lines : List String) : List String × List String :=
  match lines with
  | [] => ([], [])
  | first :: rest =>
    if first = ("---") then
      match splitAtDelim rest with
      | some (h, b) => (h, b)
      | none => ([], lines)
    else ([], lines)

/-- The numeric value declared for a key in a chart configuration header. -/
def chartConfigNat (header : List String) (k : List Char) : Option Nat :=
  match getVals (parseMetaLines header) k with
  | v :: _ => parseNatChars v
  | [] => none

/-- The chart configuration key `width`. -/
def widthKey : List Char := ("width").toList

/-- The chart configuration key `height`. -/
def heightKey : List Char := ("height").toList

/-- Modelled from the spec: the fixed default chart width used when the
header declares none. -/
def defaultChartWidth : Nat := 600

/-- Modelled from the spec: the fixed default chart height used when the
header declares none. -/
def defaultChartHeight : Nat := 400

/-- Modelled from the spec: parse one data row: exactly two comma-separated
fields with a numeric second field; anything else is malformed. -/
def parseChartRow (l : List Char) : Except String (List Char × List Char) :=
  match (splitOnChar ',' l).map trimSpaces with
  | [lab, v] =>
    if isNumericChars v then Except.ok (lab, v)
    else Except.error ("malformed chart row: non-numeric value")
  | _ => Except.error ("malformed chart row: wrong column count")

/-- The parsed chart: declared (or defaulted) dimensions, the well-formed
data rows, and one warning per skipped malformed row. -/
structure ChartData where
  width : Nat
  height : Nat
  rows : List (List Char × List Char)
  warnings : List String
deriving DecidableEq

/-- Modelled from the spec: parse a whole chart block; malformed rows are
skipped with a warning rather than aborting. -/
def parseChart (lines : List String) : ChartData :=
  let hb := chartSplit lines
  let w := (chartConfigNat hb.1 widthKey).getD defaultChartWidth
  let h := (chartConfigNat hb.1 heightKey).getD defaultChartHeight
  let parsed := (hb.2.drop 1).map (fun s => parseChartRow s.toList)
  ⟨w, h,
    parsed.filterMap (fun r =>
      match r with
      | Except.ok p => some p
      | Except.error _ => none),
    parsed.filterMap (fun r =>
      match r with
      | Except.ok _ => none
      | Except.error e => some e)⟩

/-- The embedded visual container produced for a chart block, carrying its
declared dimensions and one bar per data row. -/
structure Container where
  width : Nat
  height : Nat
  bars : List (List Char × List Char)
deriving DecidableEq

/-- Modelled from the spec: render a chart block into its visual container,
sized per the configured width and height. -/
def renderChart (lines : List String) : Container :=
  let d := parseChart lines
  ⟨d.width, d.height, d.rows⟩

/-- Well-formedness of a chart block per the mini-language: the header
declares numeric width 700 and height 300 and every data row has exactly
two comma-separated fields with a numeric second field. -/
def chartBlockWellFormed (b : List String) : Bool :=
  (chartConfigNat (chartSplit b).1 widthKey == some 700)
  && (chartConfigNat (chartSplit b).1 heightKey == some 300)
  && ((chartSplit b).2.drop 1).all (fun s =>
      match (splitOnChar ',' s.toList).map trimSpaces with
      | [_, v] => isNumericChars v
      | _ => false)

/-! ## The front-matter blocks of every post file in the repository,
embedded verbatim (the leading lines of each file up to and including
the closing delimiter). -/

/-- Front-matter lines of `src/posts/2019-02-05-state-management-with-ngrx-introduction.md`. -/
def fmPost01 : List String :=
  ["---",
   "date: 2019-05-02",
   "title: State Management with NGRX - Introduction",
   "---"]

/-- Front-matter lines of `src/posts/2019-05-05-architecting-the-store-in-ngrx.md`. -/
def fmPost02 : List String :=
  ["---",
   "date: 2019-05-05",
   "title: Architecting the Store in NGRX",
   "featuredImage: 'https://cdn-images-1.medium.com/max/1600/1*CYmnppaZkh7OcF1IRH15jQ.png'",
   "tags:",
   "  - ngrx",
   "  - angular",
   "---"]

/-- Front-matter lines of `src/posts/2019-08-25-building-scalable-multi-platform-projects-with-angular-and-nx.md`. -/
def fmPost03 : List String :=
  ["---",
   "date: 2019-08-25",
   "title: Building Scalable Multi-Platform Projects with Angular and Nx",
   "featuredImage: 'https://cdn-images-1.medium.com/max/1600/0*erZf_hQ4V3MLHSyf'",
   "description: Building a scalable multi-platform monorepo application with Angular and Nx",
   "tags:",
   "  - nx",
   "  - angular",
   "  - ionic",
   "---"]

/-- Front-matter lines of `src/posts/2019-15-04-onpush-change-detection-for-faster-angular-apps.md`. -/
def fmPost04 : List String :=
  ["---",
   "date: 2019-04-15",
   "title: OnPush change detection for faster Angular apps",
   "featuredImage: https://miro.medium.com/fit/c/960/288/1*VKY-Ldkt-iHobItql7G_5w.png",
   "description: Increasing your application's performance using OnPush change detection",
   "tags:",
   "  - angular",
   "  - performance",
   "---"]

/-- Front-matter lines of `src/posts/2019-17-04-enforce-your-team-style-with-prettier-and-tslint.md`. -/
def fmPost05 : List String :=
  ["---",
   "date: 2019-04-17",
   "title: Enforce your team coding style with Prettier and TsLint",
   "featuredImage: https://miro.medium.com/max/1400/1*DisWkrhZ8V6Hhi522eOu0g.gif",
   "tags:",
   "  - typescript",
   "---"]

/-- Front-matter lines of `src/posts/2019-19-04-multi-environment-setup-for-your-angular-app.md`. -/
def fmPost06 : List String :=
  ["---",
   "date: 2019-04-19",
   "title: Multi-environment setup for your Angular app",
   "featuredImage: https://miro.medium.com/fit/c/1400/420/1*Uf_LkjpQHAd4qDpAnqpwpQ.png",
   "tags:",
   "  - angular",
   "---"]

/-- Front-matter lines of `src/posts/2019-27-05-abstracting-state-with-ngrx-facades.md`. -/
def fmPost07 : List String :=
  ["---",
   "date: 2019-05-27",
   "title: Abstracting State with NGRX Facades",
   "featuredImage: 'https://cdn-images-1.medium.com/max/1600/1*TggmpinSAPh1ndMBoTj0bw.png'",
   "description: Using Ngrx facades to connect your components with your state",
   "tags:",
   "  - angular",
   "  - ngrx",
   "---"]

/-- Front-matter lines of `src/posts/2019-29-04-understanding-angular-modules.md`. -/
def fmPost08 : List String :=
  ["---",
   "date: 2019-04-29 00:00:00",
   "title: \"Understanding Angular Modules\"",
   "featuredImage: 'https://cdn-images-1.medium.com/max/1600/1*gpPfP-mWGZ7Ad6KRDAeKGw.jpeg'",
   "description: A quick but comprehensive guide for understanding the different types of Angular Modules",
   "tags:",
   "    - angular",
   "---"]

/-- Front-matter lines of `src/posts/2020-07-30-setters-vs-ng-on-changes.md`. -/
def fmPost09 : List String :=
  ["---",
   "title: 'Setters vs ngOnChanges: which one is better?'",
   "date: 2020-07-30",
   "tags:",
   "  - angular",
   "---"]

/-- Front-matter lines of `src/posts/2020-08-01-intersection-observer-with-angular.md`. -/
def fmPost10 : List String :=
  ["---",
   "title: Using the Intersection Observer API with Angular",
   "date: 2020-08-01",
   "featuredImage: /assets/images/posts/intersection-observer.png",
   "description: This article shows how to build a directive with Angular that uses the Intersection Observer API to check when an element becomes visible on the page",
   "tags:",
   "  - angular",
   "  - performance",
   "---"]

/-- Front-matter lines of `src/posts/2020-11-07-async-rendering-with-a-single-rx-operator.md`. -/
def fmPost11 : List String :=
  ["---",
   "title: Async Rendering with a single Rx Operator",
   "date: 2020-07-11",
   "---"]

/-- Front-matter lines of `src/posts/2020-26-07-better-code-with-typescript-aliases.md`. -/
def fmPost12 : List String :=
  ["---",
   "title: Better code with Typescript aliases",
   "date: 2020-07-26",
   "tags:",
   "  - typescript",
   "  - programming",
   "---"]

/-- Front-matter lines of `src/posts/2020-26-07-build-typescript-libraries-for-the-browser-with-nx.md`. -/
def fmPost13 : List String :=
  ["---",
   "title: Build Typescript libraries for the browser with Nx",
   "date: 2020-07-25",
   "featuredImage: /assets/images/posts/typescript-libraries-with-nx.png",
   "tags:",
   "  - typescript",
   "  - nx",
   "---"]

/-- Front-matter lines of `src/posts/2021-06-02-free-angular-code-review.md`. -/
def fmPost14 : List String :=
  ["---",
   "title: Introducing Free Angular Code Reviews",
   "date: 2021-02-06",
   "featuredImage: /assets/images/posts/free-code-reviews.png",
   "description: Angular Bites will review your code - 1-week slots open!",
   "---"]

/-- Front-matter lines of `src/posts/2021-07-02-how-to-organize-nx-modules-with-angular.md`. -/
def fmPost15 : List String :=
  ["---",
   "title: Principles for creating libraries with Nx and Angular",
   "date: 2021-02-07",
   "featuredImage: /assets/images/posts/organize-nx-modules-ngrx.png",
   "description: Working with Nx may be confusing. This article explains how I create Nx libraries and the principles behind my motivations.",
   "tags:",
   " - nx",
   " - angular",
   "---"]

/-- Front-matter lines of `src/posts/2021-14-05-webpack-5-angular12.md`. -/
def fmPost16 : List String :=
  ["---",
   "title: \"Benchmarking Angular 12 with Webpack 5\"",
   "date: 2021-05-14",
   "featuredImage: /assets/images/posts/benchmarking-webpack-5.png",
   "description: Angular 12 has been released and with it the much awaited Webpack 5 upgrade. In this post I benchmarked the bundle-size and compilation speed against the previous version.",
   "tags:",
   "- angular",
   "---"]

/-- Front-matter lines of `unnamed/part_000`. -/
def fmPost17 : List String :=
  ["---",
   "date: 2019-06-05",
   "title: Building Side Effects in NGRXs",
   "---"]

/-- Front-matter lines of `unnamed/part_001`. -/
def fmPost18 : List String :=
  ["---",
   "date: 2019-04-27",
   "title: Frameworks don't magically make your code good",
   "---"]

/-- Front-matter lines of `unnamed/part_002`. -/
def fmPost19 : List String :=
  ["---",
   "date: 2019-04-25",
   "title: Building an enterprise-grade Angular project structure",
   "tags:",
   "  - angular",
   "---"]

/-- Front-matter lines of `unnamed/part_003`. -/
def fmPost20 : List String :=
  ["---",
   "date: 2019-06-05",
   "title: A simple Countdown with RxJS",
   "tags:",
   "  - rxjs",
   "---"]

/-- Every post file of the repository paired with its front-matter lines. -/
def posts : List (String × List String) :=
  [("src/posts/2019-02-05-state-management-with-ngrx-introduction.md", fmPost01),
   ("src/posts/2019-05-05-architecting-the-store-in-ngrx.md", fmPost02),
   ("src/posts/2019-08-25-building-scalable-multi-platform-projects-with-angular-and-nx.md", fmPost03),
   ("src/posts/2019-15-04-onpush-change-detection-for-faster-angular-apps.md", fmPost04),
   ("src/posts/2019-17-04-enforce-your-team-style-with-prettier-and-tslint.md", fmPost05),
   ("src/posts/2019-19-04-multi-environment-setup-for-your-angular-app.md", fmPost06),
   ("src/posts/2019-27-05-abstracting-state-with-ngrx-facades.md", fmPost07),
   ("src/posts/2019-29-04-understanding-angular-modules.md", fmPost08),
   ("src/posts/2020-07-30-setters-vs-ng-on-changes.md", fmPost09),
   ("src/posts/2020-08-01-intersection-observer-with-angular.md", fmPost10),
   ("src/posts/2020-11-07-async-rendering-with-a-single-rx-operator.md", fmPost11),
   ("src/posts/2020-26-07-better-code-with-typescript-aliases.md", fmPost12),
   ("src/posts/2020-26-07-build-typescript-libraries-for-the-browser-with-nx.md", fmPost13),
   ("src/posts/2021-06-02-free-angular-code-review.md", fmPost14),
   ("src/posts/2021-07-02-how-to-organize-nx-modules-with-angular.md", fmPost15),
   ("src/posts/2021-14-05-webpack-5-angular12.md", fmPost16),
   ("unnamed/part_000", fmPost17),
   ("unnamed/part_001", fmPost18),
   ("unnamed/part_002", fmPost19),
   ("unnamed/part_003", fmPost20)]

/-- Content lines of the bar-chart block starting at line 33 of
`src/posts/2021-14-05-webpack-5-angular12.md`. -/
def chartBlock1 : List String :=
  ["---",
   "width: 700",
   "height: 300",
   "---",
   "Version, Time in Seconds",
   "Webpack 4,30.1",
   "Webpack 5,32.9"]

/-- Content lines of the bar-chart block starting at line 52 of
`src/posts/2021-14-05-webpack-5-angular12.md`. -/
def chartBlock2 : List String :=
  ["---",
   "width: 700",
   "height: 300",
   "---",
   "Version, Time in Seconds",
   "Webpack 4,58.1",
   "Webpack 5,51.8"]

/-- Content lines of the bar-chart block starting at line 75 of
`src/posts/2021-14-05-webpack-5-angular12.md`. -/
def chartBlock3 : List String :=
  ["---",
   "width: 700",
   "height: 300",
   "---",
   "Version, Size in kb",
   "Webpack 4,833.29",
   "Webpack 5,830.19"]

/-- Content lines of the bar-chart block starting at line 94 of
`src/posts/2021-14-05-webpack-5-angular12.md`. -/
def chartBlock4 : List String :=
  ["---",
   "width: 700",
   "height: 300",
   "---",
   "Version, Time in Seconds",
   "Webpack 4,74",
   "Webpack 5,84.5"]

/-- Content lines of the bar-chart block starting at line 113 of
`src/posts/2021-14-05-webpack-5-angular12.md`. -/
def chartBlock5 : List String :=
  ["---",
   "width: 700",
   "height: 300",
   "---",
   "Version, Time in Seconds",
   "Webpack 4,137.2",
   "Webpack 5,134.1"]

/-- Content lines of the bar-chart block starting at line 128 of
`src/posts/2021-14-05-webpack-5-angular12.md`. -/
def chartBlock6 : List String :=
  ["---",
   "width: 700",
   "height: 300",
   "---",
   "Version, Size in Mb",
   "Webpack 4,1.961",
   "Webpack 5,1.970"]

/-- Every fenced bar-chart block present in the repository content. -/
def repoChartBlocks : List (List String) :=
  [chartBlock1, chartBlock2, chartBlock3, chartBlock4, chartBlock5, chartBlock6]

/-! ## The Eleventy configuration, embedded from `.eleventy.js` -/

/-- The directory options returned by `module.exports`. -/
structure DirConfig where
  input : String
  output : String
  data : String
deriving DecidableEq

/-- The configuration surface set up by `module.exports` in `.eleventy.js`. -/
structure EleventyConfig where
  dataDeepMerge : Bool
  layoutAliases : List (String × String)
  codeblockPlugins : List String
  ejsRmWhitespace : Bool
  browserSyncFiles : List String
  passthroughCopies : List String
  dir : DirConfig
deriving DecidableEq

/-- Embedded from `.eleventy.js`: deep data merge on, the `post` layout
alias, the codeblocks plugin with charts and prism, EJS whitespace trimming,
the browser-sync watched file, and the directory settings.  The
`addPassthroughCopy('src/assets')` call is commented out in the source, so
the registered passthrough copies are empty. -/
def eleventyConfig : EleventyConfig :=
  ⟨true,
   [(("post"), ("layouts/post.ejs"))],
   [("charts"), ("prism")],
   true,
   [("./_site/assets/styles/main.css")],
   [],
   ⟨("src"), ("_site"), ("_data")⟩⟩

/-- Modelled from the spec (section 6, Output): the static assets copied to
the output are exactly those matching a registered passthrough copy path. -/
def copiedAssets (cfg : EleventyConfig) (assets : List String) : List String :=
  assets.filter (fun a => cfg.passthroughCopies.any
    (fun p => p.toList.isPrefixOf a.toList))

/-- Modelled from the spec (section 6, Output): the output file set of a
build: the rendered pages plus the passthrough-copied assets. -/
def buildOutputs (cfg : EleventyConfig) (pages : List (String × String))
    (assets : List String) : List String :=
  pages.map Prod.fst ++ copiedAssets cfg assets

/-! ## Render pipeline model

`Modelled from the spec:` the template engine and build orchestration live
in Eleventy, outside the repository; section 2 and section 4 of the spec fix
the pipeline: front-matter parse, plugin transform over chart blocks, layout
wrap, minification.  The shared state (layouts and configuration) is
threaded explicitly so that freedom from mutation is expressible. -/

/-- A layout: the skeleton text before and after the injected content. -/
structure Layout where
  before : String
  after : String
deriving DecidableEq

/-- The shared read-only build state: the loaded layouts and the
configuration. -/
structure BuildState where
  layouts : List (String × Layout)
  config : EleventyConfig
deriving DecidableEq

/-- Wrap rendered content in the named layout (content alone when the name
is unknown). -/
def applyLayout (st : BuildState) (nm : String) (content : String) : String :=
  match st.layouts.find? (fun e => e.1 == nm) with
  | some e => e.2.before ++ content ++ e.2.after
  | none => content

/-- Serialized form of a chart container. -/
def containerHtml (c : Container) : String :=
  ("<svg width=") ++ toString c.width ++ (" height=") ++ toString c.height
    ++ ("></svg>")

/-- Modelled from the spec: the plugin transform pass over the body lines,
replacing each fenced bar-chart block with its rendered container. -/
def transformBody : List String → List String
  | [] => []
  | l :: rest =>
    if l = ("```bar-chart") then
      let block := rest.takeWhile (fun s => s ≠ ("```"))
      let after := (rest.dropWhile (fun s => s ≠ ("```"))).drop 1
      containerHtml (renderChart block) :: transformBody after
    else l :: transformBody rest
termination_by ls => ls.length
decreasing_by
  · have h1 : ((rest.dropWhile (fun s => s ≠ ("```"))).drop 1).length
        ≤ rest.length - 1 + 1 - 1 := by
      have h2 := (List.dropWhile_suffix
        (l := rest) (fun s => decide (s ≠ ("```")))).length_le
      have h3 := List.length_drop 1 (rest.dropWhile (fun s => s ≠ ("```")))
      omega
    simp only [List.length_cons]
    omega
  · simp only [List.length_cons]
    exact Nat.lt_succ_self _

/-- The output path derived deterministically for a document. -/
def outputPathOf (path : String) : String := path ++ (".html")

/-- The default layout name (the configured `post` alias). -/
def defaultLayoutName : String := "post"

/-- Modelled from the spec (sections 2 and 4): render one document through
the full pipeline: front-matter parse, chart plugin transform, EJS layout
wrap, htmlmin minification; a front-matter error is fatal for the file.  The
shared state is returned alongside the result. -/
def renderDocument (st : BuildState) (path : String) (lines : List String) :
    Except String String × BuildState :=
  match parseFrontMatterLines path lines with
  | Except.error e => (Except.error e, st)
  | Except.ok (meta, body) =>
    let content := String.intercalate ("\n") (transformBody body)
    let layoutName :=
      match getVals meta (("layout").toList) with
      | v :: _ => String.mk v
      | [] => defaultLayoutName
    let page := applyLayout st layoutName content
    let rendered :=
      match htmlminTransform page (JsVal.str (outputPathOf path)) with
      | Except.ok r => r
      | Except.error _ => page
    (Except.ok rendered, st)

/-- A concrete malformed document: opening delimiter, no closing one. -/
def brokenDoc : List String := [("---"), ("title: broken post")]

/-- A concrete document tagged `angular`. -/
def docA : Document :=
  ⟨("src/posts/a.md"), [(tagsKey, [("angular").toList])], []⟩

/-- A concrete document with no tags. -/
def docB : Document := ⟨("src/posts/b.md"), [], []⟩

/-! ## Theorems -/

theorem dropWhile_eq_self_of_not_leadWs {l : List Char} (h : leadWs l = false) :
    l.dropWhile isWs = l := by
  cases l with
  | nil => rfl
  | cons c t =>
    simp only [leadWs] at h
    simp [List.dropWhile, h]

theorem leadWs_dropWhile (l : List Char) : leadWs (l.dropWhile isWs) = false := by
  induction l with
  | nil => rfl
  | cons c t ih =>
    by_cases h : isWs c = true
    · simpa [List.dropWhile, h] using ih
    · simp only [Bool.not_eq_true] at h
      simp [List.dropWhile, h, leadWs]

theorem leadWs_collapse {l : List Char} (h : leadWs l = false) :
    leadWs (collapse l) = false := by
  cases l with
  | nil => simp [collapse, leadWs]
  | cons c t =>
    simp only [leadWs] at h
    simp [collapse, h, leadWs]

theorem collapse_of_noRuns : ∀ l : List Char, noRuns l = true → collapse l = l := by
  intro l
  induction l with
  | nil => intro _; simp [collapse]
  | cons c rest ih =>
    intro h
    rw [noRuns] at h
    simp only [Bool.and_eq_true, Bool.or_eq_true, Bool.not_eq_true', beq_iff_eq] at h
    obtain ⟨hc, hrest⟩ := h
    rcases hc with hws | ⟨hsp, hlead⟩
    · simp only [collapse]
      rw [if_neg (by simp [hws]), ih hrest]
    · subst hsp
      simp only [collapse]
      rw [if_pos (by simp [isWs]),
        dropWhile_eq_self_of_not_leadWs hlead, ih hrest]

theorem noRuns_collapse : ∀ l : List Char, noRuns (collapse l) = true := by
  intro l
  induction l using collapse.induct with
  | case1 => simp [collapse, noRuns]
  | case2 c rest h ih =>
    simp only [collapse]
    rw [if_pos h]
    have hl : leadWs (collapse (rest.dropWhile isWs)) = false :=
      leadWs_collapse (leadWs_dropWhile rest)
    simp [noRuns, isWs, hl, ih]
  | case3 c rest h ih =>
    simp only [collapse]
    rw [if_neg h]
    simp only [Bool.not_eq_true] at h
    simp [noRuns, h, ih]

theorem collapse_idem (l : List Char) : collapse (collapse l) = collapse l :=
  collapse_of_noRuns _ (noRuns_collapse l)

/-- Whitespace collapsing only contracts whitespace, so a whitespace-free
pattern occurring at the start of the output already occurred at the start of
the input. -/
theorem prefix_collapse :
    ∀ m q : List Char, wsFree q = true → q <+: collapse m → q <+: m := by
  intro m
  induction m using collapse.induct with
  | case1 =>
    intro q _ h
    simpa [collapse] using h
  | case2 c rest h ih =>
    intro q hq hpre
    rw [collapse, if_pos h] at hpre
    cases q with
    | nil => exact List.nil_prefix
    | cons d q2 =>
      rw [List.cons_prefix_cons] at hpre
      obtain ⟨rfl, _⟩ := hpre
      simp [wsFree, isWs] at hq
  | case3 c rest h ih =>
    intro q hq hpre
    rw [collapse, if_neg h] at hpre
    cases q with
    | nil => exact List.nil_prefix
    | cons d q2 =>
      rw [List.cons_prefix_cons] at hpre
      obtain ⟨rfl, hpre2⟩ := hpre
      have hq2 : wsFree q2 = true := by
        simp only [wsFree, List.all_cons, Bool.and_eq_true] at hq
        exact hq.2
      exact List.cons_prefix_cons.mpr ⟨rfl, ih q2 hq2 hpre2⟩

/-- Whitespace collapsing creates no new occurrence of a nonempty
whitespace-free pattern anywhere in the output. -/
theorem infix_of_infix_collapse :
    ∀ m q : List Char, q ≠ [] → wsFree q = true → q <:+: collapse m → q <:+: m := by
  intro m
  induction m using collapse.induct with
  | case1 =>
    intro q hne _ h
    rw [show collapse [] = [] from by simp [collapse]] at h
    exact absurd (List.eq_nil_of_infix_nil h) hne
  | case2 c rest h ih =>
    intro q hne hq hinf
    rw [collapse, if_pos h] at hinf
    rcases List.infix_cons_iff.mp hinf with hpre | htail
    · cases q with
      | nil => exact absurd rfl hne
      | cons d q2 =>
        rw [List.cons_prefix_cons] at hpre
        obtain ⟨rfl, _⟩ := hpre
        simp [wsFree, isWs] at hq
    · have h1 : q <:+: rest.dropWhile isWs := ih q hne hq htail
      have h2 : q <:+: rest := h1.trans (List.dropWhile_suffix isWs).isInfix
      exact List.infix_cons h2
  | case3 c rest h ih =>
    intro q hne hq hinf
    rw [collapse, if_neg h] at hinf
    rcases List.infix_cons_iff.mp hinf with hpre | htail
    · have : q <+: collapse (c :: rest) := by
        rw [collapse, if_neg h]
        exact hpre
      exact (prefix_collapse _ q hq this).isInfix
    · exact List.infix_cons (ih q hne hq htail)

theorem not_opener_collapse {l : List Char} (h : ¬ opener <:+: l) :
    ¬ opener <:+: collapse l :=
  fun hc => h (infix_of_infix_collapse l opener (by decide) (by decide) hc)

/-- Removing comments is the identity on input containing no comment
opener. -/
theorem removeComments_of_not_opener :
    ∀ l : List Char, ¬ opener <:+: l → removeComments l = l := by
  intro l
  induction l with
  | nil => intro _; simp [removeComments]
  | cons c rest ih =>
    intro h
    rw [removeComments, if_neg (fun hp => h hp.isInfix),
      ih (fun hi => h (List.infix_cons hi))]

theorem not_opener_drop {l : List Char} (n : Nat) (h : ¬ opener <:+: l) :
    ¬ opener <:+: l.drop n :=
  fun hc => h (hc.trans (List.drop_suffix n l).isInfix)

theorem noRuns_tail {c : Char} {l : List Char} (h : noRuns (c :: l) = true) :
    noRuns l = true := by
  rw [noRuns, Bool.and_eq_true] at h
  exact h.2

theorem noRuns_drop {l : List Char} (n : Nat) (h : noRuns l = true) :
    noRuns (l.drop n) = true := by
  induction n generalizing l with
  | zero => simpa using h
  | succ k ih =>
    cases l with
    | nil => simp [noRuns]
    | cons c rest => exact ih (noRuns_tail h)

/-- Prepending the short doctype preserves freedom from comment openers. -/
theorem opener_doctypeShort_append (w : List Char) :
    opener <:+: (doctypeShort ++ w) ↔ opener <:+: w := by
  simp +decide [doctypeShort, opener, List.infix_cons_iff, List.cons_prefix_cons]

/-- Prepending the short doctype preserves the run-free invariant. -/
theorem noRuns_doctypeShort_append {w : List Char} (h : noRuns w = true) :
    noRuns (doctypeShort ++ w) = true := by
  simp +decide [doctypeShort, noRuns, leadWs, isWs, h]

theorem take_doctypeShort_append (u : List Char) :
    (doctypeShort ++ u).take 15 = doctypeShort :=
  List.take_left' (by decide)

theorem not_opener_shortDoctype {l : List Char} (h : ¬ opener <:+: l) :
    ¬ opener <:+: shortDoctype l := by
  rw [shortDoctype]
  split
  · rw [opener_doctypeShort_append]
    exact not_opener_drop 15 h
  · exact h

theorem noRuns_shortDoctype {l : List Char} (h : noRuns l = true) :
    noRuns (shortDoctype l) = true := by
  rw [shortDoctype]
  split
  · exact noRuns_doctypeShort_append (noRuns_drop 15 h)
  · exact h

theorem shortDoctype_idem (l : List Char) :
    shortDoctype (shortDoctype l) = shortDoctype l := by
  by_cases h : l.take 15 = longDoctype
  · have h1 : shortDoctype l = doctypeShort ++ l.drop 15 := by
      rw [shortDoctype, if_pos h]
    rw [h1, shortDoctype, if_neg (by rw [take_doctypeShort_append]; decide)]
  · have h1 : shortDoctype l = l := by
      rw [shortDoctype, if_neg h]
    rw [h1]
    exact h1

theorem minify_eq (s : String) :
    minify htmlminOptions s
      = String.mk (shortDoctype (collapse (removeComments s.toList))) := rfl

/-- C3: the minification transform is idempotent: for every HTML document
string x (one whose comments are properly delimited, so that removing them
once leaves no comment opener), applying the transform twice under the
configured options equals applying it once. -/
theorem minify_idempotent (x : String)
    (h : ¬ opener <:+: removeComments x.toList) :
    minify htmlminOptions (minify htmlminOptions x) = minify htmlminOptions x := by
  rw [minify_eq, minify_eq]
  have hlist : (String.mk (shortDoctype (collapse (removeComments x.toList)))).toList
      = shortDoctype (collapse (removeComments x.toList)) := rfl
  rw [hlist]
  have h1 : ¬ opener <:+: collapse (removeComments x.toList) := not_opener_collapse h
  have h2 : ¬ opener <:+: shortDoctype (collapse (removeComments x.toList)) :=
    not_opener_shortDoctype h1
  rw [removeComments_of_not_opener _ h2]
  have h3 : noRuns (shortDoctype (collapse (removeComments x.toList))) = true :=
    noRuns_shortDoctype (noRuns_collapse _)
  rw [collapse_of_noRuns _ h3, shortDoctype_idem]

/-- Witness for C3 at a concrete document containing a comment. -/
theorem minify_idempotent_witness :
    (¬ opener <:+: removeComments htmlDocSample.toList)
    ∧ minify htmlminOptions (minify htmlminOptions htmlDocSample)
        = minify htmlminOptions htmlDocSample := by
  have h : ¬ opener <:+: removeComments htmlDocSample.toList := by
    simp +decide [htmlDocSample, removeComments, skipComment, opener, closer]
  exact ⟨h, minify_idempotent htmlDocSample h⟩

/-- C2: the htmlmin transform minifies the content exactly when the item's
output path ends with `.html`; for every other string output path it returns
the input content unchanged. -/
theorem htmlminTransform_minifies_iff_html (content path : String) :
    (jsStringEndsWith path (".html") = true →
      htmlminTransform content (JsVal.str path)
        = Except.ok (minify htmlminOptions content))
    ∧ (jsStringEndsWith path (".html") = false →
      htmlminTransform content (JsVal.str path) = Except.ok content) := by
  constructor <;> intro h <;> simp [htmlminTransform, jsEndsWith, h]

/-- Witness for C2 on a `.html` path and on a `.css` path. -/
theorem htmlminTransform_minifies_iff_html_witness :
    htmlminTransform ("x") (JsVal.str ("posts/a/index.html"))
      = Except.ok (minify htmlminOptions ("x"))
    ∧ htmlminTransform ("x") (JsVal.str ("assets/styles/main.css"))
      = Except.ok ("x") :=
  ⟨(htmlminTransform_minifies_iff_html ("x") ("posts/a/index.html")).1 (by decide),
   (htmlminTransform_minifies_iff_html ("x") ("assets/styles/main.css")).2 (by decide)⟩

/-- C9: on every string outputPath the htmlmin transform returns a value
(the minified content for `.html` paths, the input otherwise), but it calls
`outputPath.endsWith` without a guard, so on the non-string outputPath
`false` the call raises instead of returning normally. -/
theorem htmlminTransform_total_only_on_strings (content s : String) :
    htmlminTransform content (JsVal.str s)
      = Except.ok
          (if jsStringEndsWith s (".html") then minify htmlminOptions content
           else content)
    ∧ ∃ e, htmlminTransform content (JsVal.bool false) = Except.error e := by
  constructor
  · by_cases h : jsStringEndsWith s (".html") = true
    · simp [htmlminTransform, jsEndsWith, h]
    · simp only [Bool.not_eq_true] at h
      simp [htmlminTransform, jsEndsWith, h]
  · exact ⟨_, rfl⟩

theorem splitAtDelim_eq_none :
    ∀ ls : List String, ("---") ∉ ls → splitAtDelim ls = none := by
  intro ls
  induction ls with
  | nil => intro _; rfl
  | cons l rest ih =>
    intro h
    simp only [List.mem_cons, not_or] at h
    rw [splitAtDelim, if_neg (fun he => h.1 he.symm), ih h.2]

/-- C6: a source document whose front matter lacks the closing delimiter
makes the render pipeline abort with a fatal error whose message references
that document's file path. -/
theorem missing_delimiter_aborts (st : BuildState) (path : String)
    (lines : List String) (h1 : lines.head? = some ("---"))
    (h2 : ("---") ∉ lines.tail) :
    (renderDocument st path lines).1 = Except.error (fmErrorMsg path)
    ∧ ∃ pre, fmErrorMsg path = pre ++ path := by
  refine ⟨?_, ⟨_, rfl⟩⟩
  cases lines with
  | nil => simp at h1
  | cons first rest =>
    simp only [List.head?, Option.some.injEq] at h1
    subst h1
    simp only [List.tail_cons] at h2
    have hp : parseFrontMatterLines path (("---") :: rest)
        = Except.error (fmErrorMsg path) := by
      simp [parseFrontMatterLines, splitAtDelim_eq_none rest h2]
    simp [renderDocument, hp]

/-- Witness for C6 at a concrete malformed document. -/
theorem missing_delimiter_aborts_witness :
    (brokenDoc.head? = some ("---")) ∧ (("---") ∉ brokenDoc.tail)
    ∧ (renderDocument ⟨[], eleventyConfig⟩ ("src/posts/broken.md") brokenDoc).1
        = Except.error (fmErrorMsg ("src/posts/broken.md")) := by
  refine ⟨rfl, by decide, ?_⟩
  exact (missing_delimiter_aborts ⟨[], eleventyConfig⟩ ("src/posts/broken.md")
    brokenDoc rfl (by decide)).1

/-- C4: rendering is deterministic and mutation-free: rendering a document
returns the shared state (layouts and configuration) unchanged, and
rendering the same document again, from the state returned by the first
run, produces the identical output. -/
theorem renderDocument_deterministic_and_pure (st : BuildState) (path : String)
    (lines : List String) :
    (renderDocument st path lines).2 = st
    ∧ (renderDocument ((renderDocument st path lines).2) path lines).1
      = (renderDocument st path lines).1 := by
  have hst : (renderDocument st path lines).2 = st := by
    cases h : parseFrontMatterLines path lines <;> simp [renderDocument, h]
  exact ⟨hst, by rw [hst]⟩

/-- C7: the derived tag-index view is sound and complete: for every tag
occurring in some document, the set derived for it contains exactly the
documents whose tag list contains that tag. -/
theorem tagIndex_sound_complete (docs : List Document) (t : List Char)
    (_hocc : ∃ d ∈ docs, t ∈ tagsOf d) :
    ∀ d : Document, d ∈ tagIndex docs t ↔ (d ∈ docs ∧ t ∈ tagsOf d) := by
  intro d
  simp [tagIndex, List.mem_filter]

/-- Witness for C7 on a concrete two-document collection. -/
theorem tagIndex_sound_complete_witness :
    docA ∈ tagIndex [docA, docB] (("angular").toList)
    ∧ docB ∉ tagIndex [docA, docB] (("angular").toList) := by
  have h := tagIndex_sound_complete [docA, docB] (("angular").toList)
    ⟨docA, by decide, by decide⟩
  refine ⟨(h docA).mpr ⟨by decide, by decide⟩, fun hm => ?_⟩
  exact absurd ((h docB).mp hm).2 (by decide)

/-- C8: every post file in the repository satisfies the orderability
invariant: its front matter parses and contains at least a title and a date
field. -/
theorem posts_have_title_and_date : ∀ p ∈ posts, orderable p = true := by decide

/-- Witness for C8 at the first post file. -/
theorem posts_have_title_and_date_witness :
    orderable
      (("src/posts/2019-02-05-state-management-with-ngrx-introduction.md"),
        fmPost01) = true :=
  posts_have_title_and_date _ (by decide)

/-- C5: a chart block whose header declares width 700 and height 300 and
which contains two data rows produces a visual container whose declared
dimensions equal 700 by 300. -/
theorem chart_declared_dimensions (lines : List String)
    (hw : chartConfigNat (chartSplit lines).1 widthKey = some 700)
    (hh : chartConfigNat (chartSplit lines).1 heightKey = some 300)
    (_hrows : (parseChart lines).rows.length = 2) :
    (renderChart lines).width = 700 ∧ (renderChart lines).height = 300 := by
  constructor <;> simp [renderChart, parseChart, hw, hh]

/-- Witness for C5 at the first bar-chart block of the repository. -/
theorem chart_declared_dimensions_witness :
    (chartConfigNat (chartSplit chartBlock1).1 widthKey = some 700)
    ∧ (parseChart chartBlock1).rows.length = 2
    ∧ (renderChart chartBlock1).width = 700
    ∧ (renderChart chartBlock1).height = 300 := by
  have h := chart_declared_dimensions chartBlock1 (by decide) (by decide)
    (by decide)
  exact ⟨by decide, by decide, h.1, h.2⟩

/-- C10: every fenced bar-chart block in the repository content is
well-formed for the chart mini-language (numeric width 700 and height 300
declared, every data row exactly two comma-separated fields with a numeric
second field), so parsing produces no warnings: the malformed-row skip
branch is unreachable on this content. -/
theorem repo_chart_blocks_all_well_formed :
    repoChartBlocks.all chartBlockWellFormed = true
    ∧ repoChartBlocks.all
        (fun b => ((parseChart b).warnings == ([] : List String))
          && ((parseChart b).rows.length == 2)) = true :=
  ⟨by decide, by decide⟩

/-- C1 counterexample: with the configuration of `.eleventy.js` (whose
`addPassthroughCopy` call is commented out), building an input tree holding
a static asset produces an output that does not contain that asset. -/
theorem passthrough_asset_missing_from_output :
    ("src/assets/logo.png") ∉ buildOutputs eleventyConfig
      [(("posts/a/index.html"), ("<p>x</p>"))] [("src/assets/logo.png")] := by
  decide

/-- C1 amended: the build's output contains exactly the rendered HTML pages;
no passthrough copy is registered (the `addPassthroughCopy` call is
commented out), so no static asset is copied into the output. -/
theorem buildOutputs_eq_pages (pages : List (String × String))
    (assets : List String) :
    buildOutputs eleventyConfig pages assets = pages.map Prod.fst := by
  have hp : eleventyConfig.passthroughCopies = [] := rfl
  have h : copiedAssets eleventyConfig assets = [] := by
    simp [copiedAssets, hp]
  rw [buildOutputs, h, List.append_nil]

end AngularBites
